import Mathlib

/-!
Verification development for the `populartimes` Home Assistant custom
integration (sources: `custom_components/populartimes/__init__.py`,
`sensor.py`, `config_flow.py`, `diagnostics.py`).

Modelling conventions (shallow embedding):

* Python strings are modelled as `List Char` (`PyStr`); `str.strip()`,
  `str.lower()`, `str.startswith`, `str.split(",")` and `", ".join` are
  given direct recursive definitions below.
* Python values that flow through the popularity pipeline are modelled by
  `PyVal` with constructors for `None`, `int`, `float` (as `ℚ`; the float
  operations the code performs — doubling, `min`, `int()` truncation —
  are exact on these values), `str` and `list`.
* The blocking call `livepopulartimes.get_populartimes_by_address` is an
  external dependency; one invocation per attempt is modelled by an
  oracle `fetch : ℕ → FetchOutcome` giving, for each attempt number, the
  returned snapshot (truthy `ok`, falsy `okEmpty`) or the raised
  exception class (`Timeout`, `ConnectionError`, `HTTPError` with an
  optional status code, any other exception).
* `random.uniform(0, b)` (with `b ≥ 0`) is modelled as `b * u` for an
  oracle draw `u`; theorems assume `0 ≤ u ≤ 1`.
* `datetime.now()` is modelled by a `LocalTime` parameter carrying
  `weekday()` and `hour`.
* `hashlib.sha256(...).hexdigest()` is an external dependency and is
  modelled as an uninterpreted function parameter.
-/

/-- Python strings, modelled as lists of characters. -/
abbrev PyStr := List Char

/-- Python `str.strip()`: drop whitespace from both ends. -/
def pyStrip (s : PyStr) : PyStr :=
  ((s.dropWhile Char.isWhitespace).reverse.dropWhile Char.isWhitespace).reverse

/-- Python `str.lower()` (ASCII case folding). -/
def pyLower (s : PyStr) : PyStr := s.map Char.toLower

/-- Python `address.split(",")`: split at every comma, keeping empty parts. -/
def splitComma : PyStr → List PyStr
  | [] => [[]]
  | c :: rest =>
    if c = ',' then [] :: splitComma rest
    else
      match splitComma rest with
      | [] => [[c]]
      | h :: t => (c :: h) :: t

/-- Python `", ".join(parts)`. -/
def joinCS : List PyStr → PyStr
  | [] => []
  | [p] => p
  | p :: ps => p ++ ',' :: ' ' :: joinCS ps

/-- Python values reaching the popularity pipeline: `None`, `int`, `float`
(exactly represented as `ℚ`), `str`, `list`. -/
inductive PyVal where
  | pnone : PyVal
  | pint (n : ℤ) : PyVal
  | pfloat (q : ℚ) : PyVal
  | pstr (s : PyStr) : PyVal
  | plist (l : List PyVal) : PyVal

/-- Python `int()` on a float value: truncation toward zero. -/
def pyInt (q : ℚ) : ℤ := if 0 ≤ q then Int.floor q else Int.ceil q

/-- Lines 146–147 of `__init__.py` (and 292–293 of `sensor.py`):
`if isinstance(popularity, (int, float)): popularity = max(0, min(100, int(popularity)))`.
Numeric values are truncated with `int()` and clamped; anything else is
returned unchanged. -/
def pyClamp (v : PyVal) : PyVal :=
  match v with
  | PyVal.pint n => PyVal.pint (max 0 (min 100 n))
  | PyVal.pfloat q => PyVal.pint (max 0 (min 100 (pyInt q)))
  | v => v

/-- Python subscripting `v[h]` with a nonnegative integer index, returning
`Option.none` when the operation raises (`TypeError` for non-sequences,
`IndexError` past the end). String indexing yields a one-character string. -/
def pyIndex (v : PyVal) (h : ℕ) : Option PyVal :=
  match v with
  | PyVal.plist l => l.get? h
  | PyVal.pstr s => (s.get? h).map (fun c => PyVal.pstr [c])
  | _ => Option.none

/-- One entry of the `populartimes` sequence, reduced to the only field the
code reads: `Option.some v` when `entry["data"]` evaluates to `v`, and
`Option.none` when that subscript raises (`KeyError` for a dict without the
key, `TypeError` for a non-dict entry). -/
abbrev Day := Option PyVal

/-- The raw fetch result (a truthy Python dict). `current_popularity` is
`result.get("current_popularity")`, so an absent key and a stored `None`
are both `PyVal.pnone`. `populartimes` is the value of the
`"populartimes"` key as a list; an absent key, a `None` value and a
non-list value are all modelled as `[]`, which the code cannot
distinguish from them on any path it takes (the attribute loop leaves
all seven attributes `None` and the fallback lookup raises). -/
structure VenueSnapshot where
  name : PyVal
  address : PyVal
  current_popularity : PyVal
  populartimes : List Day

/-- Model of `datetime.now()` as used by the code: `weekday()` (Monday = 0) and `hour`. -/
structure LocalTime where
  weekday : ℕ
  hour : ℕ

/-- The attribute dict built by `_async_update_data` (lines 107–131) and
mutated by `sensor.async_update` (lines 255–267). `is_live` holds the
`popularity_is_live` value (`Option.none` for Python `None`). -/
structure Attrs where
  maps_name : PyVal
  address : PyVal
  is_live : Option Bool
  monday : PyVal
  tuesday : PyVal
  wednesday : PyVal
  thursday : PyVal
  friday : PyVal
  saturday : PyVal
  sunday : PyVal

/-- The conditional expression `pop[d]["data"] if len(pop) > d else None`:
`Except.error ()` when it raises (caught `KeyError`/`TypeError`),
otherwise the value assigned to the weekday attribute. -/
def dayVal (pop : List Day) (d : ℕ) : Except Unit PyVal :=
  if d < pop.length then
    match pop.getD d Option.none with
    | Option.some v => Except.ok v
    | Option.none => Except.error ()
  else Except.ok PyVal.pnone

/-- The `try` block assigning the seven weekday attributes in order
(lines 120–131 of `__init__.py`, lines 259–268 of `sensor.py`): the first
raising assignment aborts the block, keeping the remaining attributes at
their previous values. -/
def setDays (a : Attrs) (pop : List Day) : Attrs :=
  match dayVal pop 0 with
  | Except.error _ => a
  | Except.ok v0 =>
    let a0 := { a with monday := v0 }
    match dayVal pop 1 with
    | Except.error _ => a0
    | Except.ok v1 =>
      let a1 := { a0 with tuesday := v1 }
      match dayVal pop 2 with
      | Except.error _ => a1
      | Except.ok v2 =>
        let a2 := { a1 with wednesday := v2 }
        match dayVal pop 3 with
        | Except.error _ => a2
        | Except.ok v3 =>
          let a3 := { a2 with thursday := v3 }
          match dayVal pop 4 with
          | Except.error _ => a3
          | Except.ok v4 =>
            let a4 := { a3 with friday := v4 }
            match dayVal pop 5 with
            | Except.error _ => a4
            | Except.ok v5 =>
              let a5 := { a4 with saturday := v5 }
              match dayVal pop 6 with
              | Except.error _ => a5
              | Except.ok v6 => { a5 with sunday := v6 }

/-- Embedding of `result["populartimes"][weekday_index]["data"][hour_index]`
(line 139 / line 277): `Option.none` when any step raises one of the
caught `KeyError`/`IndexError`/`TypeError` exceptions. -/
def gridLookup (pop : List Day) (w h : ℕ) : Option PyVal :=
  match pop.get? w with
  | Option.none => Option.none
  | Option.some Option.none => Option.none
  | Option.some (Option.some v) => pyIndex v h

/-- The retryable causes remembered in `last_exc`. -/
inductive FailCause where
  | timeoutErr : FailCause
  | connectErr : FailCause
  | httpError (status : Option ℤ) : FailCause
  | emptyResult : FailCause

/-- Structured refresh errors: the distinct `UpdateFailed` raises of
`_async_update_data`. -/
inductive UpdateErr where
  | exhausted (cause : FailCause) : UpdateErr
  | permanentHttp (status : Option ℤ) : UpdateErr
  | unexpected : UpdateErr
  | noFallback : UpdateErr

/-- The value returned by `_async_update_data` on success:
`{"state": popularity, "attributes": attributes}`. -/
structure Reading where
  state : PyVal
  attributes : Attrs

/-- The fresh attribute dict of lines 107–118 (everything `None` except the
snapshot metadata). -/
def initAttrs (s : VenueSnapshot) : Attrs :=
  { maps_name := s.name, address := s.address, is_live := Option.none,
    monday := PyVal.pnone, tuesday := PyVal.pnone, wednesday := PyVal.pnone,
    thursday := PyVal.pnone, friday := PyVal.pnone, saturday := PyVal.pnone,
    sunday := PyVal.pnone }

/-- The day-attribute dict together with the `popularity_is_live` flag, as
produced on the two success paths of normalization. -/
def attrsWithLive (s : VenueSnapshot) (b : Bool) : Attrs :=
  { setDays (initAttrs s) s.populartimes with is_live := Option.some b }

/-- Lines 106–149 of `__init__.py`: normalization of a truthy snapshot into
the returned reading, or the `UpdateFailed` raised when the live value is
absent and the historical fallback is unavailable. -/
def normalizeSnapshot (s : VenueSnapshot) (now : LocalTime) : Except UpdateErr Reading :=
  let attrs := setDays (initAttrs s) s.populartimes
  match s.current_popularity with
  | PyVal.pnone =>
    match gridLookup s.populartimes now.weekday now.hour with
    | Option.none => Except.error UpdateErr.noFallback
    | Option.some v =>
      Except.ok { state := pyClamp v, attributes := { attrs with is_live := Option.some false } }
  | v => Except.ok { state := pyClamp v, attributes := { attrs with is_live := Option.some true } }

/-- Query derivation (lines 38–46 of `__init__.py`, 233–241 of `sensor.py`):
the boolean `a.startswith(n) or a.startswith(f"{n},") or a.startswith(f"{n} ")`. -/
def nameLeadsAddress (n a : PyStr) : Bool :=
  n.isPrefixOf a || (n ++ [',']).isPrefixOf a || (n ++ [' ']).isPrefixOf a

/-- Lines 35–46 of `__init__.py` (identical in `sensor.py` 230–241): build
the query string from the configured name and address. -/
def buildQuery (name address : PyStr) : PyStr :=
  let nameS := pyStrip name
  let addrS := pyStrip address
  if nameS ≠ [] then
    if nameLeadsAddress (pyLower nameS) (pyLower addrS) then addrS
    else if addrS ≠ [] then nameS ++ ',' :: ' ' :: addrS else nameS
  else addrS

/-- Outcome of one `livepopulartimes.get_populartimes_by_address` call:
a truthy snapshot, a falsy result (`None` or an empty dict), or a raised
exception of one of the classes the code distinguishes. An `HTTPError`
carries `getattr(getattr(err, "response", None), "status_code", None)`. -/
inductive FetchOutcome where
  | ok (s : VenueSnapshot) : FetchOutcome
  | okEmpty : FetchOutcome
  | timeoutExc : FetchOutcome
  | connectExc : FetchOutcome
  | httpExc (status : Option ℤ) : FetchOutcome
  | otherExc : FetchOutcome

/-- Line 75: `status in (429, 502, 503, 504) or (status is not None and status >= 500)`. -/
def retryableStatus : Option ℤ → Bool
  | Option.some st => st == 429 || st == 502 || st == 503 || st == 504 || decide (500 ≤ st)
  | Option.none => false

/-- What one iteration of the `try`/`except` ladder (lines 58–85) does with
the fetch outcome: succeed with a snapshot, record a retryable cause with
the computed `retryable` flag, or raise an `UpdateFailed` immediately. -/
inductive StepResult where
  | success (s : VenueSnapshot) : StepResult
  | retryStep (cause : FailCause) (retryable : Bool) : StepResult
  | permanentFail (e : UpdateErr) : StepResult

/-- The `try`/`except` ladder of lines 58–85. The `attemptLtMax` argument is
`attempt < max_attempts`, used only by the empty-result handler
(line 82: `retryable = attempt < max_attempts`). -/
def classify (o : FetchOutcome) (attemptLtMax : Bool) : StepResult :=
  match o with
  | FetchOutcome.ok s => StepResult.success s
  | FetchOutcome.okEmpty => StepResult.retryStep FailCause.emptyResult attemptLtMax
  | FetchOutcome.timeoutExc => StepResult.retryStep FailCause.timeoutErr true
  | FetchOutcome.connectExc => StepResult.retryStep FailCause.connectErr true
  | FetchOutcome.httpExc st =>
    if retryableStatus st then StepResult.retryStep (FailCause.httpError st) true
    else StepResult.permanentFail (UpdateErr.permanentHttp st)
  | FetchOutcome.otherExc => StepResult.permanentFail UpdateErr.unexpected

/-- Outcomes treated as transient by the ladder: timeout, connection error,
retryable HTTP status, or an empty/falsy snapshot. -/
def isTransientB (o : FetchOutcome) : Bool :=
  match o with
  | FetchOutcome.okEmpty => true
  | FetchOutcome.timeoutExc => true
  | FetchOutcome.connectExc => true
  | FetchOutcome.httpExc st => retryableStatus st
  | _ => false

/-- Outcomes that make the ladder raise immediately: a non-retryable HTTP
status or an unexpected non-network exception. -/
def isPermanentB (o : FetchOutcome) : Bool :=
  match o with
  | FetchOutcome.httpExc st => !retryableStatus st
  | FetchOutcome.otherExc => true
  | _ => false

/-- The `last_exc` recorded for a transient outcome. -/
def transientCause (o : FetchOutcome) : FailCause :=
  match o with
  | FetchOutcome.timeoutExc => FailCause.timeoutErr
  | FetchOutcome.connectExc => FailCause.connectErr
  | FetchOutcome.httpExc st => FailCause.httpError st
  | _ => FailCause.emptyResult

/-- The `UpdateFailed` raised for a permanent outcome. -/
def permanentErrOf (o : FetchOutcome) : UpdateErr :=
  match o with
  | FetchOutcome.httpExc st => UpdateErr.permanentHttp st
  | _ => UpdateErr.unexpected

/-- Non-retryable refresh errors (everything except retry exhaustion). -/
def isPermanentErr : UpdateErr → Bool
  | UpdateErr.exhausted _ => false
  | _ => true

/-- Result of the attempt loop: the snapshot that broke the loop or the
error that aborted it, together with the number of the attempt on which
the loop ended and the list of total sleep durations performed. -/
inductive LoopResult where
  | gotSnapshot (s : VenueSnapshot) (attempt : ℕ) (sleeps : List ℚ) : LoopResult
  | failed (e : UpdateErr) (attempt : ℕ) (sleeps : List ℚ) : LoopResult

/-- The attempt on which the loop ended (one fetch call per attempt). -/
def LoopResult.attempts : LoopResult → ℕ
  | LoopResult.gotSnapshot _ n _ => n
  | LoopResult.failed _ n _ => n

/-- The total sleep durations performed, in order. -/
def LoopResult.sleeps : LoopResult → List ℚ
  | LoopResult.gotSnapshot _ _ ss => ss
  | LoopResult.failed _ _ ss => ss

/-- The retry loop of lines 57–104. `fuel` is a structural bound on the
remaining iterations; `updateCycle` supplies `fuel = maxA` with
`attempt = 1`, and the guard `attempt < maxA` keeps the `fuel = 0` case
unreachable for any `maxA ≥ 1`. `rand attempt` is the uniform draw
(in `[0,1]`) used for the jitter of the sleep after that attempt, so the
total sleep is `sleep_for + 0.4 * sleep_for * rand attempt`, and the
delay is updated to `min(delay * 2, maxD)` exactly as on line 101. -/
def attemptLoop (fetch : ℕ → FetchOutcome) (rand : ℕ → ℚ) (maxA : ℕ) (maxD : ℚ) :
    ℕ → ℕ → ℚ → LoopResult
  | 0, attempt, _ =>
    LoopResult.failed (UpdateErr.exhausted (transientCause (fetch attempt))) attempt []
  | fuel + 1, attempt, delay =>
    match classify (fetch attempt) (decide (attempt < maxA)) with
    | StepResult.success s => LoopResult.gotSnapshot s attempt []
    | StepResult.permanentFail e => LoopResult.failed e attempt []
    | StepResult.retryStep cause retryable =>
      if attempt < maxA ∧ retryable = true then
        let sleepFor := min delay maxD
        let total := sleepFor + (0.4 : ℚ) * sleepFor * rand attempt
        match attemptLoop fetch rand maxA maxD fuel (attempt + 1) (min (delay * 2) maxD) with
        | LoopResult.gotSnapshot s n ss => LoopResult.gotSnapshot s n (total :: ss)
        | LoopResult.failed e n ss => LoopResult.failed e n (total :: ss)
      else LoopResult.failed (UpdateErr.exhausted cause) attempt []

/-- What happens after the loop: a snapshot is normalized, an error is
propagated. -/
def loopOutcome (now : LocalTime) : LoopResult → Except UpdateErr Reading
  | LoopResult.gotSnapshot s _ _ => normalizeSnapshot s now
  | LoopResult.failed e _ _ => Except.error e

/-- Observable trace of one refresh cycle: number of fetch calls, total
sleep durations, and the terminal outcome. -/
structure CycleResult where
  fetches : ℕ
  sleeps : List ℚ
  outcome : Except UpdateErr Reading

/-- One full `_async_update_data` cycle, with the loop constants
(`max_attempts`, initial `delay`, `max_delay`) lambda-lifted. -/
def updateCycle (fetch : ℕ → FetchOutcome) (rand : ℕ → ℚ) (now : LocalTime)
    (maxA : ℕ) (initial maxD : ℚ) : CycleResult :=
  let r := attemptLoop fetch rand maxA maxD maxA 1 initial
  { fetches := r.attempts, sleeps := r.sleeps, outcome := loopOutcome now r }

/-- Line 52: `max_attempts = 4`. -/
def coordinatorMaxAttempts : ℕ := 4
/-- Line 53: `delay = 1.0`. -/
def coordinatorInitialDelay : ℚ := 1
/-- Line 54: `max_delay = 8.0`. -/
def coordinatorMaxDelay : ℚ := 8
/-- Line 156: `update_interval=timedelta(minutes=10)`. -/
def coordinatorUpdateIntervalMinutes : ℕ := 10

/-- Embedding of `_async_update_data` as wired up by `async_setup_entry`: the cycle with
the hard-coded constants of lines 52–54. -/
def asyncUpdateData (fetch : ℕ → FetchOutcome) (rand : ℕ → ℚ) (now : LocalTime) : CycleResult :=
  updateCycle fetch rand now coordinatorMaxAttempts coordinatorInitialDelay coordinatorMaxDelay

/-- The mutable state of `PopularTimesSensor`: `_state` and `_attributes`. -/
structure SensorState where
  state : PyVal
  attrs : Attrs

/-- Embedding of `PopularTimesSensor.async_update` (lines 227–300 of `sensor.py`) as a
state transformer on one fetch outcome. Network exceptions and unexpected
exceptions are caught and logged (no mutation); a falsy result returns
early (no mutation); a truthy snapshot first overwrites the metadata and
weekday attributes, then either sets the new state (live or fallback) or
returns early when the fallback is unavailable. -/
def sensorAsyncUpdate (st : SensorState) (o : FetchOutcome) (now : LocalTime) : SensorState :=
  match o with
  | FetchOutcome.ok s =>
    let attrs1 := { st.attrs with address := s.address, maps_name := s.name }
    let attrs2 := setDays attrs1 s.populartimes
    match s.current_popularity with
    | PyVal.pnone =>
      match gridLookup s.populartimes now.weekday now.hour with
      | Option.none => { st with attrs := attrs2 }
      | Option.some v =>
        { state := pyClamp v, attrs := { attrs2 with is_live := Option.some false } }
    | v => { state := pyClamp v, attrs := { attrs2 with is_live := Option.some true } }
  | _ => st

/-- A sensor update cycle that does not produce a new reading: any caught
exception, a falsy result, or a truthy snapshot with no live value and no
fallback entry. -/
def sensorCycleFails (o : FetchOutcome) (now : LocalTime) : Bool :=
  match o with
  | FetchOutcome.ok s =>
    match s.current_popularity, gridLookup s.populartimes now.weekday now.hour with
    | PyVal.pnone, Option.none => true
    | _, _ => false
  | _ => true

/-- From `config_flow.py` line 210: `max(1, min(120, int(...)))`. -/
def clampInterval (x : ℤ) : ℤ := max 1 (min 120 x)
/-- From `config_flow.py` line 211: `max(1, min(8, int(...)))`. -/
def clampAttempts (x : ℤ) : ℤ := max 1 (min 8 x)
/-- From `config_flow.py` line 212: `max(0.1, min(30.0, float(...)))`. -/
def clampBackoffInitial (x : ℚ) : ℚ := max (0.1 : ℚ) (min 30 x)
/-- From `config_flow.py` line 213: `max(backoff_initial, min(120.0, float(...)))`,
where `backoff_initial` is the already-clamped initial backoff. -/
def clampBackoffMax (backoffInitial x : ℚ) : ℚ := max backoffInitial (min 120 x)

/-- Embedding of `diagnostics._redact_address` (lines 17–27): falsy addresses are
returned unchanged; otherwise the address is split on commas, every part
is stripped, the first part is replaced by `"***"` and the parts are
rejoined with `", "`. -/
def redactAddress : Option PyStr → Option PyStr
  | Option.none => Option.none
  | Option.some s =>
    if s = [] then Option.some s
    else
      match (splitComma s).map pyStrip with
      | [] => Option.some s
      | _ :: rest => Option.some (joinCS (['*', '*', '*'] :: rest))

/-- Embedding of `config_flow._addr_unique_id` (lines 30–32):
`f"addr_{sha256(address.strip().lower().encode()).hexdigest()[:12]}"`.
The SHA-256 hex digest of the UTF-8 encoding is an external dependency,
passed in as the uninterpreted function `hashHex`. -/
def addrUniqueId (hashHex : PyStr → PyStr) (address : PyStr) : PyStr :=
  ['a', 'd', 'd', 'r', '_'] ++ (hashHex (pyLower (pyStrip address))).take 12

/-- The delay value before the sleep after attempt `1 + i`, obtained by
iterating line 101 (`delay = min(delay * 2, max_delay)`) `i` times. -/
def delayIter (maxD : ℚ) : ℕ → ℚ → ℚ
  | 0, d => d
  | n + 1, d => delayIter maxD n (min (d * 2) maxD)

/-- Total sleep (lines 89–91): `min d maxD` plus the jitter `0.4 * min d maxD * r`. -/
def sleepVal (maxD d r : ℚ) : ℚ := min d maxD + (0.4 : ℚ) * min d maxD * r

/-- Prepend sleep durations to a loop result. -/
def consSleeps (pre : List ℚ) : LoopResult → LoopResult
  | LoopResult.gotSnapshot s n ss => LoopResult.gotSnapshot s n (pre ++ ss)
  | LoopResult.failed e n ss => LoopResult.failed e n (pre ++ ss)

theorem consSleeps_nil (r : LoopResult) : consSleeps [] r = r := by
  cases r <;> simp [consSleeps]

theorem consSleeps_attempts (pre : List ℚ) (r : LoopResult) :
    (consSleeps pre r).attempts = r.attempts := by
  cases r <;> simp [consSleeps, LoopResult.attempts]

theorem consSleeps_sleeps (pre : List ℚ) (r : LoopResult) :
    (consSleeps pre r).sleeps = pre ++ r.sleeps := by
  cases r <;> simp [consSleeps, LoopResult.sleeps]

theorem loopOutcome_consSleeps (now : LocalTime) (pre : List ℚ) (r : LoopResult) :
    loopOutcome now (consSleeps pre r) = loopOutcome now r := by
  cases r <;> simp [consSleeps, loopOutcome]

theorem classify_transient (o : FetchOutcome) (h : isTransientB o = true) :
    classify o true = StepResult.retryStep (transientCause o) true := by
  cases o <;> simp_all [isTransientB, classify, transientCause]

theorem classify_transient_any (o : FetchOutcome) (b : Bool) (h : isTransientB o = true) :
    ∃ rb, classify o b = StepResult.retryStep (transientCause o) rb := by
  cases o <;> simp_all [isTransientB, classify, transientCause]

theorem classify_permanent (o : FetchOutcome) (b : Bool) (h : isPermanentB o = true) :
    classify o b = StepResult.permanentFail (permanentErrOf o) := by
  cases o <;> simp_all [isPermanentB, classify, permanentErrOf]

/-- The loop never reports an attempt number below the one it started at. -/
theorem attemptLoop_attempts_ge (fetch : ℕ → FetchOutcome) (rand : ℕ → ℚ)
    (maxA : ℕ) (maxD : ℚ) :
    ∀ (fuel attempt : ℕ) (delay : ℚ),
      attempt ≤ (attemptLoop fetch rand maxA maxD fuel attempt delay).attempts := by
  intro fuel
  induction fuel with
  | zero => intro attempt delay; simp [attemptLoop, LoopResult.attempts]
  | succ f ih =>
    intro attempt delay
    simp only [attemptLoop]
    split
    · simp [LoopResult.attempts]
    · simp [LoopResult.attempts]
    · split
      · have h := ih (attempt + 1) (min (delay * 2) maxD)
        split <;> rename_i heq <;> rw [heq] at h <;>
          simp_all [LoopResult.attempts] <;> omega
      · simp [LoopResult.attempts]

/-- Running the loop across `n` consecutive transient attempts peels off
`n` sleeps, whose durations follow the delay recurrence, and continues at
attempt `attempt + n`. -/
theorem loop_transient_run (fetch : ℕ → FetchOutcome) (rand : ℕ → ℚ)
    (maxA : ℕ) (maxD : ℚ) :
    ∀ (n attempt fuel : ℕ) (delay : ℚ),
      n ≤ fuel → attempt + n ≤ maxA →
      (∀ k, attempt ≤ k → k < attempt + n → isTransientB (fetch k) = true) →
      attemptLoop fetch rand maxA maxD fuel attempt delay =
        consSleeps ((List.range n).map (fun i =>
            sleepVal maxD (delayIter maxD i delay) (rand (attempt + i))))
          (attemptLoop fetch rand maxA maxD (fuel - n) (attempt + n) (delayIter maxD n delay)) := by
  intro n
  induction n with
  | zero =>
    intro attempt fuel delay _ _ _
    simp [delayIter, consSleeps_nil]
  | succ n ih =>
    intro attempt fuel delay hnf ham ht
    obtain ⟨f, rfl⟩ : ∃ f, fuel = f + 1 := ⟨fuel - 1, by omega⟩
    have hlt : attempt < maxA := by omega
    have htr : isTransientB (fetch attempt) = true := ht attempt le_rfl (by omega)
    have hdec : decide (attempt < maxA) = true := decide_eq_true hlt
    have hcl : classify (fetch attempt) (decide (attempt < maxA)) =
        StepResult.retryStep (transientCause (fetch attempt)) true := by
      rw [hdec]; exact classify_transient _ htr
    have hih := ih (attempt + 1) f (min (delay * 2) maxD) (by omega) (by omega)
      (fun k hk1 hk2 => ht k (by omega) (by omega))
    simp only [attemptLoop, hcl]
    rw [if_pos ⟨hlt, trivial⟩]
    rw [hih]
    have hrange : (List.range (n + 1)).map (fun i =>
          sleepVal maxD (delayIter maxD i delay) (rand (attempt + i))) =
        sleepVal maxD delay (rand attempt) ::
          (List.range n).map (fun i =>
            sleepVal maxD (delayIter maxD i (min (delay * 2) maxD)) (rand (attempt + 1 + i))) := by
      rw [List.range_succ_eq_map, List.map_cons, List.map_map]
      refine congrArg₂ _ (by simp [delayIter]) ?_
      refine List.map_congr_left (fun i _ => ?_)
      have harg : attempt + (i + 1) = attempt + 1 + i := by omega
      simp [Function.comp, delayIter, harg]
    rw [hrange]
    have hfuel : f + 1 - (n + 1) = f - n := by omega
    have hatt : attempt + (n + 1) = attempt + 1 + n := by omega
    have hdel : delayIter maxD (n + 1) delay = delayIter maxD n (min (delay * 2) maxD) := rfl
    rw [hfuel, hatt, hdel]
    cases attemptLoop fetch rand maxA maxD (f - n) (attempt + 1 + n)
        (delayIter maxD n (min (delay * 2) maxD)) <;>
      simp [consSleeps, sleepVal]

/-- The capped delay after `n` doublings equals the cap of `d * 2 ^ n`. -/
theorem delayIter_min (maxD : ℚ) (hM : 0 ≤ maxD) :
    ∀ (n : ℕ) (d : ℚ), 0 ≤ d → min (delayIter maxD n d) maxD = min (d * 2 ^ n) maxD := by
  intro n
  induction n with
  | zero => intro d _; simp [delayIter]
  | succ n ih =>
    intro d hd
    have h2 : (0 : ℚ) ≤ min (d * 2) maxD := le_min (by positivity) hM
    rw [delayIter, ih _ h2]
    rcases le_total (d * 2) maxD with h | h
    · rw [min_eq_left h]
      ring_nf
    · rw [min_eq_right h]
      have h1 : maxD ≤ maxD * 2 ^ n := le_mul_of_one_le_right hM (one_le_pow₀ (by norm_num))
      have h2' : maxD * 2 ^ n ≤ d * 2 * 2 ^ n :=
        mul_le_mul_of_nonneg_right h (by positivity)
      have h3 : maxD ≤ d * 2 ^ (n + 1) := by
        have : d * 2 * 2 ^ n = d * 2 ^ (n + 1) := by ring
        rw [← this]; exact le_trans h1 h2'
      rw [min_eq_right h1, min_eq_right h3]

/-- A cycle whose every attempt is transient runs all `maxA` attempts,
sleeps `maxA - 1` times, and ends exhausted with the last cause. -/
theorem cycle_all_transient (fetch : ℕ → FetchOutcome) (rand : ℕ → ℚ) (now : LocalTime)
    (maxA : ℕ) (initial maxD : ℚ) (hA : 1 ≤ maxA)
    (hT : ∀ k, 1 ≤ k → k ≤ maxA → isTransientB (fetch k) = true) :
    (updateCycle fetch rand now maxA initial maxD).fetches = maxA ∧
    (updateCycle fetch rand now maxA initial maxD).sleeps =
      (List.range (maxA - 1)).map (fun i =>
        sleepVal maxD (delayIter maxD i initial) (rand (1 + i))) ∧
    (updateCycle fetch rand now maxA initial maxD).outcome =
      Except.error (UpdateErr.exhausted (transientCause (fetch maxA))) := by
  have hrun := loop_transient_run fetch rand maxA maxD (maxA - 1) 1 maxA initial
    (by omega) (by omega) (fun k hk1 hk2 => hT k hk1 (by omega))
  have hfuel : maxA - (maxA - 1) = 1 := by omega
  have hatt : 1 + (maxA - 1) = maxA := by omega
  rw [hfuel, hatt] at hrun
  have htr : isTransientB (fetch maxA) = true := hT maxA hA le_rfl
  obtain ⟨rb, hcl⟩ := classify_transient_any (fetch maxA) (decide (maxA < maxA)) htr
  have hlast : attemptLoop fetch rand maxA maxD 1 maxA (delayIter maxD (maxA - 1) initial) =
      LoopResult.failed (UpdateErr.exhausted (transientCause (fetch maxA))) maxA [] := by
    simp only [attemptLoop, hcl]
    rw [if_neg (by intro h; exact absurd h.1 (by omega))]
  rw [hlast] at hrun
  refine ⟨?_, ?_, ?_⟩
  · show (attemptLoop fetch rand maxA maxD maxA 1 initial).attempts = maxA
    rw [hrun, consSleeps_attempts]
    rfl
  · show (attemptLoop fetch rand maxA maxD maxA 1 initial).sleeps = _
    rw [hrun, consSleeps_sleeps]
    simp [LoopResult.sleeps]
  · show loopOutcome now (attemptLoop fetch rand maxA maxD maxA 1 initial) = _
    rw [hrun, loopOutcome_consSleeps]
    rfl

/-- Claim C1: when every one of the 4 attempts fails transiently (timeout,
connection error, retryable HTTP status) or returns an empty snapshot, the
cycle performs exactly 4 fetch attempts and exactly 3 sleeps; the base
delay of sleep `k` (0-based `i = k - 1`) is `min (initial * 2 ^ i) maxD`,
the total sleep adds a jitter in `[0, 0.4 * base]` (the uniform draw being
modelled by the oracle `rand` with values in `[0, 1]`), and the cycle ends
with an exhaustion error carrying the cause of the last attempt. -/
theorem C1_retry_backoff_exhaustion
    (fetch : ℕ → FetchOutcome) (rand : ℕ → ℚ) (now : LocalTime) (initial maxD : ℚ)
    (hi : 0 < initial) (him : initial ≤ maxD)
    (hT : ∀ k, 1 ≤ k → k ≤ 4 → isTransientB (fetch k) = true)
    (hr : ∀ k, 0 ≤ rand k ∧ rand k ≤ 1) :
    (updateCycle fetch rand now 4 initial maxD).fetches = 4 ∧
    (updateCycle fetch rand now 4 initial maxD).sleeps.length = 3 ∧
    (∀ i, ∀ hilt : i < (updateCycle fetch rand now 4 initial maxD).sleeps.length,
      ∃ jit, 0 ≤ jit ∧ jit ≤ (0.4 : ℚ) * min (initial * 2 ^ i) maxD ∧
        (updateCycle fetch rand now 4 initial maxD).sleeps.get ⟨i, hilt⟩ =
          min (initial * 2 ^ i) maxD + jit) ∧
    (updateCycle fetch rand now 4 initial maxD).outcome =
      Except.error (UpdateErr.exhausted (transientCause (fetch 4))) := by
  obtain ⟨hf, hs, ho⟩ := cycle_all_transient fetch rand now 4 initial maxD (by omega) hT
  refine ⟨hf, ?_, ?_, ho⟩
  · rw [hs]; simp
  · intro i hilt
    have hM : (0 : ℚ) ≤ maxD := le_trans hi.le him
    have hbase : min (delayIter maxD i initial) maxD = min (initial * 2 ^ i) maxD :=
      delayIter_min maxD hM i initial hi.le
    have hb : (0 : ℚ) ≤ min (initial * 2 ^ i) maxD := le_min (by positivity) hM
    refine ⟨(0.4 : ℚ) * min (initial * 2 ^ i) maxD * rand (1 + i), ?_, ?_, ?_⟩
    · exact mul_nonneg (mul_nonneg (by norm_num) hb) (hr (1 + i)).1
    · exact mul_le_of_le_one_right (mul_nonneg (by norm_num) hb) (hr (1 + i)).2
    · simp only [List.get_eq_getElem, hs, List.getElem_map, List.getElem_range]
      rw [sleepVal, hbase]

/-- Witness for C1: every attempt times out, `initial = 1`, `maxD = 8`,
jitter draws all zero. -/
theorem C1_retry_backoff_exhaustion_witness :
    (updateCycle (fun _ => FetchOutcome.timeoutExc) (fun _ => 0) ⟨0, 0⟩ 4 1 8).fetches = 4 ∧
    (updateCycle (fun _ => FetchOutcome.timeoutExc) (fun _ => 0) ⟨0, 0⟩ 4 1 8).sleeps.length = 3 ∧
    (updateCycle (fun _ => FetchOutcome.timeoutExc) (fun _ => 0) ⟨0, 0⟩ 4 1 8).outcome =
      Except.error (UpdateErr.exhausted FailCause.timeoutErr) := by
  have h := C1_retry_backoff_exhaustion (fun _ => FetchOutcome.timeoutExc) (fun _ => 0)
    ⟨0, 0⟩ 1 8 (by norm_num) (by norm_num) (fun k _ _ => rfl) (fun k => by norm_num)
  exact ⟨h.1, h.2.1, h.2.2.2⟩

/-- Claim C3: a permanent fetch failure (HTTP status not in
429/502/503/504 and not ≥ 500 — including a missing status — or any
unexpected non-network exception) at attempt `j` stops the cycle at once:
exactly `j` fetches, `j - 1` sleeps (all performed before the failure),
and a non-retryable error; whereas timeout, connection error and HTTP
429/502/503/504/≥500 are classified transient and lead to a further
attempt whenever budget remains. -/
theorem C3_permanent_stops_cycle
    (fetch : ℕ → FetchOutcome) (rand : ℕ → ℚ) (now : LocalTime)
    (maxA : ℕ) (initial maxD : ℚ) (j : ℕ) (hj1 : 1 ≤ j) (hjm : j ≤ maxA)
    (hpre : ∀ k, 1 ≤ k → k < j → isTransientB (fetch k) = true)
    (hperm : isPermanentB (fetch j) = true) :
    (updateCycle fetch rand now maxA initial maxD).fetches = j ∧
    (updateCycle fetch rand now maxA initial maxD).sleeps.length = j - 1 ∧
    (updateCycle fetch rand now maxA initial maxD).outcome =
      Except.error (permanentErrOf (fetch j)) ∧
    isPermanentErr (permanentErrOf (fetch j)) = true ∧
    isTransientB FetchOutcome.timeoutExc = true ∧
    isTransientB FetchOutcome.connectExc = true ∧
    (∀ st : Option ℤ, isTransientB (FetchOutcome.httpExc st) = true ↔
      (st = Option.some 429 ∨ st = Option.some 502 ∨ st = Option.some 503 ∨
       st = Option.some 504 ∨ ∃ n : ℤ, st = Option.some n ∧ 500 ≤ n)) ∧
    (∀ (fetch2 : ℕ → FetchOutcome) (j2 : ℕ), 1 ≤ j2 → j2 < maxA →
      (∀ k, 1 ≤ k → k ≤ j2 → isTransientB (fetch2 k) = true) →
      j2 + 1 ≤ (updateCycle fetch2 rand now maxA initial maxD).fetches) := by
  have hrun := loop_transient_run fetch rand maxA maxD (j - 1) 1 maxA initial
    (by omega) (by omega) (fun k hk1 hk2 => hpre k hk1 (by omega))
  have hatt : 1 + (j - 1) = j := by omega
  rw [hatt] at hrun
  obtain ⟨f, hf⟩ : ∃ f, maxA - (j - 1) = f + 1 := ⟨maxA - j, by omega⟩
  rw [hf] at hrun
  have hstep : attemptLoop fetch rand maxA maxD (f + 1) j (delayIter maxD (j - 1) initial) =
      LoopResult.failed (permanentErrOf (fetch j)) j [] := by
    simp only [attemptLoop, classify_permanent (fetch j) _ hperm]
  rw [hstep] at hrun
  refine ⟨?_, ?_, ?_, ?_, rfl, rfl, ?_, ?_⟩
  · show (attemptLoop fetch rand maxA maxD maxA 1 initial).attempts = j
    rw [hrun, consSleeps_attempts]
    rfl
  · show (attemptLoop fetch rand maxA maxD maxA 1 initial).sleeps.length = j - 1
    rw [hrun, consSleeps_sleeps]
    simp [LoopResult.sleeps]
  · show loopOutcome now (attemptLoop fetch rand maxA maxD maxA 1 initial) = _
    rw [hrun, loopOutcome_consSleeps]
    rfl
  · cases fetch j <;> rfl
  · intro st
    cases st with
    | none => simp [isTransientB, retryableStatus]
    | some v =>
      simp only [isTransientB, retryableStatus, Bool.or_eq_true, beq_iff_eq,
        decide_eq_true_eq, Option.some.injEq]
      constructor
      · intro h
        rcases h with ((((h | h) | h) | h) | h)
        · exact Or.inl h
        · exact Or.inr (Or.inl h)
        · exact Or.inr (Or.inr (Or.inl h))
        · exact Or.inr (Or.inr (Or.inr (Or.inl h)))
        · exact Or.inr (Or.inr (Or.inr (Or.inr ⟨v, rfl, h⟩)))
      · intro h
        rcases h with h | h | h | h | ⟨n, hn, h⟩
        · exact Or.inl (Or.inl (Or.inl (Or.inl h)))
        · exact Or.inl (Or.inl (Or.inl (Or.inr h)))
        · exact Or.inl (Or.inl (Or.inr h))
        · exact Or.inl (Or.inr h)
        · subst hn
          exact Or.inr h
  · intro fetch2 j2 hj21 hj2m ht2
    have hrun2 := loop_transient_run fetch2 rand maxA maxD j2 1 maxA initial
      (by omega) (by omega) (fun k hk1 hk2 => ht2 k hk1 (by omega))
    have hge := attemptLoop_attempts_ge fetch2 rand maxA maxD (maxA - j2) (1 + j2)
      (delayIter maxD j2 initial)
    show j2 + 1 ≤ (attemptLoop fetch2 rand maxA maxD maxA 1 initial).attempts
    rw [hrun2, consSleeps_attempts]
    omega

/-- Witness for C3: a timeout on attempt 1, then HTTP 404 on attempt 2,
with 4 attempts allowed: exactly 2 fetches, 1 sleep, permanent error. -/
theorem C3_permanent_stops_cycle_witness :
    (updateCycle (fun k => if k = 1 then FetchOutcome.timeoutExc
        else FetchOutcome.httpExc (Option.some 404)) (fun _ => 0) ⟨0, 0⟩ 4 1 8).fetches = 2 ∧
    (updateCycle (fun k => if k = 1 then FetchOutcome.timeoutExc
        else FetchOutcome.httpExc (Option.some 404)) (fun _ => 0) ⟨0, 0⟩ 4 1 8).sleeps.length = 1 ∧
    (updateCycle (fun k => if k = 1 then FetchOutcome.timeoutExc
        else FetchOutcome.httpExc (Option.some 404)) (fun _ => 0) ⟨0, 0⟩ 4 1 8).outcome =
      Except.error (UpdateErr.permanentHttp (Option.some 404)) := by
  have h := C3_permanent_stops_cycle (fun k => if k = 1 then FetchOutcome.timeoutExc
      else FetchOutcome.httpExc (Option.some 404)) (fun _ => 0) ⟨0, 0⟩ 4 1 8 2
    (by norm_num) (by norm_num)
    (fun k hk1 hk2 => by
      have hk : k = 1 := by omega
      subst hk
      rfl)
    (by decide)
  exact ⟨h.1, h.2.1, h.2.2.1⟩

/-- Claim C4: when attempt `j` yields a truthy snapshot whose
`current_popularity` is absent and whose `populartimes` grid has no entry
at the current weekday/hour (empty, missing or malformed — all the cases
in which the fallback lookup of line 139 raises), the cycle fails with the
non-retryable error of line 142 and performs no further fetch attempts. -/
theorem C4_no_fallback_is_permanent
    (fetch : ℕ → FetchOutcome) (rand : ℕ → ℚ) (now : LocalTime)
    (maxA : ℕ) (initial maxD : ℚ) (j : ℕ) (s : VenueSnapshot)
    (hj1 : 1 ≤ j) (hjm : j ≤ maxA)
    (hpre : ∀ k, 1 ≤ k → k < j → isTransientB (fetch k) = true)
    (hok : fetch j = FetchOutcome.ok s)
    (hlive : s.current_popularity = PyVal.pnone)
    (hgrid : gridLookup s.populartimes now.weekday now.hour = Option.none) :
    (updateCycle fetch rand now maxA initial maxD).fetches = j ∧
    (updateCycle fetch rand now maxA initial maxD).outcome =
      Except.error UpdateErr.noFallback ∧
    isPermanentErr UpdateErr.noFallback = true := by
  have hrun := loop_transient_run fetch rand maxA maxD (j - 1) 1 maxA initial
    (by omega) (by omega) (fun k hk1 hk2 => hpre k hk1 (by omega))
  have hatt : 1 + (j - 1) = j := by omega
  rw [hatt] at hrun
  obtain ⟨f, hf⟩ : ∃ f, maxA - (j - 1) = f + 1 := ⟨maxA - j, by omega⟩
  rw [hf] at hrun
  have hstep : attemptLoop fetch rand maxA maxD (f + 1) j (delayIter maxD (j - 1) initial) =
      LoopResult.gotSnapshot s j [] := by
    simp only [attemptLoop, hok, classify]
  rw [hstep] at hrun
  have hnorm : normalizeSnapshot s now = Except.error UpdateErr.noFallback := by
    rw [normalizeSnapshot, hlive]
    simp only [hgrid]
  refine ⟨?_, ?_, rfl⟩
  · show (attemptLoop fetch rand maxA maxD maxA 1 initial).attempts = j
    rw [hrun, consSleeps_attempts]
    rfl
  · show loopOutcome now (attemptLoop fetch rand maxA maxD maxA 1 initial) = _
    rw [hrun, loopOutcome_consSleeps, loopOutcome, hnorm]

/-- Witness for C4: the first attempt returns a snapshot with no live
value and an empty grid. -/
theorem C4_no_fallback_is_permanent_witness :
    (updateCycle (fun _ => FetchOutcome.ok ⟨PyVal.pnone, PyVal.pnone, PyVal.pnone, []⟩)
        (fun _ => 0) ⟨0, 0⟩ 4 1 8).fetches = 1 ∧
    (updateCycle (fun _ => FetchOutcome.ok ⟨PyVal.pnone, PyVal.pnone, PyVal.pnone, []⟩)
        (fun _ => 0) ⟨0, 0⟩ 4 1 8).outcome = Except.error UpdateErr.noFallback := by
  have h := C4_no_fallback_is_permanent
    (fun _ => FetchOutcome.ok ⟨PyVal.pnone, PyVal.pnone, PyVal.pnone, []⟩)
    (fun _ => 0) ⟨0, 0⟩ 4 1 8 1 ⟨PyVal.pnone, PyVal.pnone, PyVal.pnone, []⟩
    (by norm_num) (by norm_num) (fun k hk1 hk2 => absurd hk2 (by omega)) rfl rfl rfl
  exact ⟨h.1, h.2.1⟩

/-- Values on which the clamp of lines 146–147 is the identity: integers
already in `[0, 100]`, and non-numeric values (passed through). -/
def preservedByClamp (v : PyVal) : Bool :=
  match v with
  | PyVal.pint n => decide (0 ≤ n) && decide (n ≤ 100)
  | PyVal.pfloat _ => false
  | _ => true

theorem pyClamp_preserved (v : PyVal) (h : preservedByClamp v = true) : pyClamp v = v := by
  cases v with
  | pint n =>
    simp only [preservedByClamp, Bool.and_eq_true, decide_eq_true_eq] at h
    simp only [pyClamp]
    congr 1
    omega
  | pfloat q => simp [preservedByClamp] at h
  | pnone => rfl
  | pstr s => rfl
  | plist l => rfl

/-- Claim C5 (amended): for a truthy snapshot, a present
`current_popularity` yields a reading with `is_live = True` and state equal
to the clamped normalization of that value; an absent `current_popularity`
with a grid entry at the current weekday/hour yields `is_live = False` and
state equal to the clamped normalization of the grid entry — which equals
the grid entry itself whenever that entry is an integer in `[0, 100]` or a
non-numeric value. -/
theorem C5_live_and_fallback_reading (s : VenueSnapshot) (now : LocalTime) :
    (∀ v, s.current_popularity = v → v ≠ PyVal.pnone →
      normalizeSnapshot s now =
        Except.ok { state := pyClamp v, attributes := attrsWithLive s true }) ∧
    (∀ v, s.current_popularity = PyVal.pnone →
      gridLookup s.populartimes now.weekday now.hour = Option.some v →
      normalizeSnapshot s now =
        Except.ok { state := pyClamp v, attributes := attrsWithLive s false } ∧
      (preservedByClamp v = true → pyClamp v = v)) := by
  constructor
  · intro v hv hne
    rw [normalizeSnapshot, hv]
    cases v with
    | pnone => exact absurd rfl hne
    | pint n => rfl
    | pfloat q => rfl
    | pstr str => rfl
    | plist l => rfl
  · intro v hv hg
    rw [normalizeSnapshot, hv]
    simp only [hg]
    exact ⟨rfl, pyClamp_preserved v⟩

/-- A snapshot with no live value and a grid entry of 150 at Monday 0:00. -/
def snapC5 : VenueSnapshot :=
  ⟨PyVal.pnone, PyVal.pnone, PyVal.pnone, [Option.some (PyVal.plist [PyVal.pint 150])]⟩

/-- Counterexample to C5 as stated: with a grid entry of 150, the reading
has `is_live = False` but its state is the clamped 100, not "that grid
entry". -/
theorem C5_counterexample :
    snapC5.current_popularity = PyVal.pnone ∧
    gridLookup snapC5.populartimes 0 0 = Option.some (PyVal.pint 150) ∧
    normalizeSnapshot snapC5 ⟨0, 0⟩ =
      Except.ok { state := PyVal.pint 100, attributes := attrsWithLive snapC5 false } ∧
    PyVal.pint 100 ≠ PyVal.pint 150 := by
  refine ⟨rfl, rfl, ?_, by simp⟩
  rfl

/-- Witness for C5 (amended): a live value of 50 yields a live reading. -/
theorem C5_live_and_fallback_reading_witness :
    normalizeSnapshot ⟨PyVal.pnone, PyVal.pnone, PyVal.pint 50, []⟩ ⟨0, 0⟩ =
      Except.ok (Reading.mk (pyClamp (PyVal.pint 50))
        (attrsWithLive ⟨PyVal.pnone, PyVal.pnone, PyVal.pint 50, []⟩ true)) :=
  (C5_live_and_fallback_reading ⟨PyVal.pnone, PyVal.pnone, PyVal.pint 50, []⟩ ⟨0, 0⟩).1
    (PyVal.pint 50) rfl (by simp)

/-- Modelled from the spec's normalization formula
`max(0, min(100, round(value)))` (§4.2 step 3), for comparison with the
code's `max(0, min(100, int(value)))`. -/
def specClampRound (q : ℚ) : ℤ := max 0 (min 100 (round q))

/-- Counterexample to C6 as stated: for the numeric value 2.7 the code
truncates (`int(2.7) = 2`) while the claim's formula rounds
(`round(2.7) = 3`). -/
theorem C6_counterexample :
    pyClamp (PyVal.pfloat (27 / 10)) = PyVal.pint 2 ∧
    specClampRound (27 / 10) = 3 ∧
    PyVal.pint 2 ≠ PyVal.pint 3 := by
  refine ⟨?_, ?_, by simp⟩
  · simp only [pyClamp]
    norm_num [pyInt]
  · norm_num [specClampRound, round_eq]

/-- Claim C6 (amended): for every numeric popularity value the normalized
value is `max(0, min(100, int(v)))` where `int` truncates toward zero (the
identity on integers) — hence 150 normalizes to 100 and -5 to 0 — and
every non-numeric value is passed through unchanged; moreover every state
produced by normalization is the clamp of the live value or of the grid
entry used as fallback. -/
theorem C6_clamp_truncation :
    (∀ n : ℤ, pyClamp (PyVal.pint n) = PyVal.pint (max 0 (min 100 n))) ∧
    (∀ q : ℚ, pyClamp (PyVal.pfloat q) = PyVal.pint (max 0 (min 100 (pyInt q)))) ∧
    pyClamp (PyVal.pint 150) = PyVal.pint 100 ∧
    pyClamp (PyVal.pint (-5)) = PyVal.pint 0 ∧
    pyClamp PyVal.pnone = PyVal.pnone ∧
    (∀ s, pyClamp (PyVal.pstr s) = PyVal.pstr s) ∧
    (∀ l, pyClamp (PyVal.plist l) = PyVal.plist l) ∧
    (∀ (s : VenueSnapshot) (now : LocalTime) (r : Reading),
      normalizeSnapshot s now = Except.ok r →
      (s.current_popularity ≠ PyVal.pnone → r.state = pyClamp s.current_popularity) ∧
      (s.current_popularity = PyVal.pnone →
        gridLookup s.populartimes now.weekday now.hour ≠ Option.none ∧
        ∀ v, gridLookup s.populartimes now.weekday now.hour = Option.some v →
          r.state = pyClamp v)) := by
  refine ⟨fun n => rfl, fun q => rfl, rfl, rfl, rfl, fun s => rfl, fun l => rfl, ?_⟩
  intro s now r hr
  rw [normalizeSnapshot] at hr
  constructor
  · intro hne
    cases hv : s.current_popularity with
    | pnone => exact absurd hv hne
    | pint n =>
      rw [hv] at hr
      injection hr with h
      subst h
      rfl
    | pfloat q =>
      rw [hv] at hr
      injection hr with h
      subst h
      rfl
    | pstr str =>
      rw [hv] at hr
      injection hr with h
      subst h
      rfl
    | plist l =>
      rw [hv] at hr
      injection hr with h
      subst h
      rfl
  · intro hz
    rw [hz] at hr
    cases hg : gridLookup s.populartimes now.weekday now.hour with
    | none =>
      rw [hg] at hr
      simp at hr
    | some v =>
      rw [hg] at hr
      injection hr with h
      subst h
      refine ⟨by simp [hg], ?_⟩
      intro v2 hv2
      injection hv2 with h2
      subst h2
      rfl

/-- Witness for C6 (amended): a live value of 7 produces exactly the
clamped state. -/
theorem C6_clamp_truncation_witness :
    (Reading.mk (pyClamp (PyVal.pint 7))
        (attrsWithLive ⟨PyVal.pnone, PyVal.pnone, PyVal.pint 7, []⟩ true)).state =
      pyClamp (PyVal.pint 7) := by
  have h := C6_clamp_truncation.2.2.2.2.2.2.2 ⟨PyVal.pnone, PyVal.pnone, PyVal.pint 7, []⟩
    ⟨0, 0⟩ (Reading.mk (pyClamp (PyVal.pint 7))
      (attrsWithLive ⟨PyVal.pnone, PyVal.pnone, PyVal.pint 7, []⟩ true)) rfl
  exact h.1 (by simp)

/-- Claim C2: with `n` the stripped name and `a` the stripped address —
if `n` is non-empty and the lowercased `a` starts with the lowercased `n`
(plainly, or followed by a comma or a space), the query is `a` alone (so
the name is never duplicated); otherwise if both are non-empty the query
is `"{n}, {a}"`; if only one is non-empty the query is that one. -/
theorem C2_query_derivation (name address : PyStr) :
    (pyStrip name ≠ [] →
      ((pyLower (pyStrip name)).isPrefixOf (pyLower (pyStrip address)) = true ∨
       (pyLower (pyStrip name) ++ [',']).isPrefixOf (pyLower (pyStrip address)) = true ∨
       (pyLower (pyStrip name) ++ [' ']).isPrefixOf (pyLower (pyStrip address)) = true) →
      buildQuery name address = pyStrip address) ∧
    (pyStrip name ≠ [] → pyStrip address ≠ [] →
      ¬((pyLower (pyStrip name)).isPrefixOf (pyLower (pyStrip address)) = true ∨
        (pyLower (pyStrip name) ++ [',']).isPrefixOf (pyLower (pyStrip address)) = true ∨
        (pyLower (pyStrip name) ++ [' ']).isPrefixOf (pyLower (pyStrip address)) = true) →
      buildQuery name address = pyStrip name ++ ',' :: ' ' :: pyStrip address) ∧
    (pyStrip name ≠ [] → pyStrip address = [] → buildQuery name address = pyStrip name) ∧
    (pyStrip name = [] → buildQuery name address = pyStrip address) := by
  refine ⟨?_, ?_, ?_, ?_⟩
  · intro h1 h2
    have hc : nameLeadsAddress (pyLower (pyStrip name)) (pyLower (pyStrip address)) = true := by
      simp only [nameLeadsAddress, Bool.or_eq_true]
      tauto
    rw [buildQuery]
    simp only [if_pos h1, hc, if_pos]
  · intro h1 ha h2
    have hc : nameLeadsAddress (pyLower (pyStrip name)) (pyLower (pyStrip address)) = false := by
      simp only [nameLeadsAddress]
      simp only [not_or] at h2
      simp [h2.1, h2.2.1, h2.2.2]
    rw [buildQuery]
    simp only [if_pos h1, hc, Bool.false_eq_true, if_false, if_pos ha]
  · intro h1 ha
    have hpl : pyLower (pyStrip name) ≠ [] := by
      intro h
      exact h1 (by simpa [pyLower] using h)
    have hc : nameLeadsAddress (pyLower (pyStrip name)) (pyLower []) = false := by
      cases hn : pyLower (pyStrip name) with
      | nil => exact absurd hn hpl
      | cons c cs => rfl
    simp only [buildQuery, ha, if_pos h1, hc]
    simp
  · intro h1
    rw [buildQuery]
    simp [h1]

/-- Witness for C2: name `"a"`, address `"ab"` — the address already
starts with the name, so the query is the address alone. -/
theorem C2_query_derivation_witness :
    buildQuery ['a'] ['a', 'b'] = pyStrip ['a', 'b'] :=
  (C2_query_derivation ['a'] ['a', 'b']).1 (by decide) (Or.inl (by decide))

/-- Whether a fetch outcome delivered a truthy snapshot. -/
def isOkOutcome : FetchOutcome → Bool
  | FetchOutcome.ok _ => true
  | _ => false

/-- Previous sensor state used for the C7 instances: an established reading
with metadata. -/
def sensC7 : SensorState :=
  ⟨PyVal.pint 42,
   ⟨PyVal.pstr ['O'], PyVal.pstr ['O'], Option.some true, PyVal.pnone, PyVal.pnone,
    PyVal.pnone, PyVal.pnone, PyVal.pnone, PyVal.pnone, PyVal.pnone⟩⟩

/-- Truthy snapshot with fresh metadata but no live value and no grid:
the sensor's fallback-unavailable failing path. -/
def snapC7 : VenueSnapshot := ⟨PyVal.pstr ['N'], PyVal.pnone, PyVal.pnone, []⟩

/-- Counterexample to C7 as stated: on this failing cycle (truthy snapshot,
no live value, no fallback entry) the legacy sensor update keeps the state
value but has already overwritten the `maps_name` attribute — the previous
attributes are not left entirely unchanged. -/
theorem C7_counterexample :
    sensorCycleFails (FetchOutcome.ok snapC7) ⟨0, 0⟩ = true ∧
    (sensorAsyncUpdate sensC7 (FetchOutcome.ok snapC7) ⟨0, 0⟩).state = sensC7.state ∧
    (sensorAsyncUpdate sensC7 (FetchOutcome.ok snapC7) ⟨0, 0⟩).attrs.maps_name = PyVal.pstr ['N'] ∧
    sensC7.attrs.maps_name = PyVal.pstr ['O'] ∧
    PyVal.pstr ['N'] ≠ PyVal.pstr ['O'] := by
  refine ⟨rfl, rfl, rfl, rfl, ?_⟩
  intro h
  injection h with h2
  exact absurd h2 (by decide)

/-- Claim C7 (amended): every refresh invocation has exactly one terminal
outcome. The coordinator update returns a value or an error and touches no
previous reading (it has none in scope). The legacy sensor update never
changes the exposed state value on a failing cycle, and leaves the whole
state untouched whenever no truthy snapshot was obtained; only the
fallback-unavailable failing path overwrites attributes. -/
theorem C7_terminal_outcome_and_mutation
    (fetch : ℕ → FetchOutcome) (rand : ℕ → ℚ) (now : LocalTime)
    (st : SensorState) (o : FetchOutcome) :
    ((∃ r, (asyncUpdateData fetch rand now).outcome = Except.ok r) ∨
     (∃ e, (asyncUpdateData fetch rand now).outcome = Except.error e)) ∧
    (sensorCycleFails o now = true →
      (sensorAsyncUpdate st o now).state = st.state) ∧
    (isOkOutcome o = false → sensorAsyncUpdate st o now = st) := by
  refine ⟨?_, ?_, ?_⟩
  · cases h : (asyncUpdateData fetch rand now).outcome with
    | ok r => exact Or.inl ⟨r, rfl⟩
    | error e => exact Or.inr ⟨e, rfl⟩
  · intro hfail
    cases o with
    | ok s =>
      rw [sensorAsyncUpdate]
      cases hv : s.current_popularity with
      | pnone =>
        cases hg : gridLookup s.populartimes now.weekday now.hour with
        | none => rfl
        | some v =>
          rw [sensorCycleFails, hv, hg] at hfail
          simp at hfail
      | pint n => rw [sensorCycleFails, hv] at hfail; simp at hfail
      | pfloat q => rw [sensorCycleFails, hv] at hfail; simp at hfail
      | pstr str => rw [sensorCycleFails, hv] at hfail; simp at hfail
      | plist l => rw [sensorCycleFails, hv] at hfail; simp at hfail
    | okEmpty => rfl
    | timeoutExc => rfl
    | connectExc => rfl
    | httpExc status => rfl
    | otherExc => rfl
  · intro hok
    cases o with
    | ok s => simp [isOkOutcome] at hok
    | okEmpty => rfl
    | timeoutExc => rfl
    | connectExc => rfl
    | httpExc status => rfl
    | otherExc => rfl

/-- Witness for C7 (amended): a timed-out cycle leaves the sensor state
fully unchanged, and the coordinator cycle has a terminal outcome. -/
theorem C7_terminal_outcome_and_mutation_witness :
    (sensorAsyncUpdate sensC7 FetchOutcome.timeoutExc ⟨0, 0⟩).state = sensC7.state ∧
    sensorAsyncUpdate sensC7 FetchOutcome.timeoutExc ⟨0, 0⟩ = sensC7 := by
  have h := C7_terminal_outcome_and_mutation (fun _ => FetchOutcome.timeoutExc) (fun _ => 0)
    ⟨0, 0⟩ sensC7 FetchOutcome.timeoutExc
  exact ⟨h.2.1 rfl, h.2.2 rfl⟩

/-- Claim C8: the options flow does clamp the policy values to the claimed
ranges, but the refresh cycle does not consume them — `_async_update_data`
hard-codes `max_attempts = 4`, `delay = 1.0`, `max_delay = 8.0` and the
coordinator hard-codes a 10-minute interval, so a configured (and clamped)
`max_attempts = 8` still yields exactly 4 fetch attempts. -/
theorem C8_policy_clamped_but_ignored :
    clampAttempts 8 = 8 ∧
    clampInterval 60 = 60 ∧
    clampBackoffInitial 5 = 5 ∧
    clampBackoffMax 5 20 = 20 ∧
    coordinatorMaxAttempts = 4 ∧
    coordinatorUpdateIntervalMinutes = 10 ∧
    coordinatorInitialDelay = 1 ∧
    coordinatorMaxDelay = 8 ∧
    (asyncUpdateData (fun _ => FetchOutcome.timeoutExc) (fun _ => 0) ⟨0, 0⟩).fetches =
      coordinatorMaxAttempts ∧
    coordinatorMaxAttempts ≠ Int.toNat (clampAttempts 8) := by
  refine ⟨by decide, by decide, ?_, ?_, rfl, rfl, rfl, rfl, rfl, by decide⟩
  · rw [clampBackoffInitial, min_eq_right (by norm_num : (5 : ℚ) ≤ 30),
      max_eq_right (by norm_num : (0.1 : ℚ) ≤ 5)]
  · rw [clampBackoffMax, min_eq_right (by norm_num : (20 : ℚ) ≤ 120),
      max_eq_right (by norm_num : (5 : ℚ) ≤ 20)]

theorem splitComma_ne_nil (s : PyStr) : splitComma s ≠ [] := by
  cases s with
  | nil => simp [splitComma]
  | cons c rest =>
    simp only [splitComma]
    split
    · simp
    · split <;> simp

/-- Claim C9 (amended): for a non-empty address the redaction replaces the
first comma-separated segment with `"***"`, strips the remaining segments
and rejoins them with `", "`; `None` and the empty address are returned
unchanged. The redacted output therefore always begins with the segment
`"***"` (followed by the end of the string or a comma) in place of the
original first segment — though the first segment's text can still occur
when it is repeated in a later segment. -/
theorem C9_redaction_structure :
    redactAddress Option.none = Option.none ∧
    redactAddress (Option.some []) = Option.some [] ∧
    (∀ s : PyStr, s ≠ [] →
      redactAddress (Option.some s) =
        Option.some (joinCS (['*', '*', '*'] :: ((splitComma s).map pyStrip).tail)) ∧
      ∀ t, redactAddress (Option.some s) = Option.some t →
        t.take 3 = ['*', '*', '*'] ∧
          (t.get? 3 = Option.none ∨ t.get? 3 = Option.some ',')) := by
  refine ⟨rfl, rfl, ?_⟩
  intro s hs
  obtain ⟨p, rest, hsp⟩ : ∃ p rest, (splitComma s).map pyStrip = p :: rest := by
    cases h : (splitComma s).map pyStrip with
    | nil => exact absurd (List.map_eq_nil_iff.mp h) (splitComma_ne_nil s)
    | cons p rest => exact ⟨p, rest, rfl⟩
  have heq : redactAddress (Option.some s) =
      Option.some (joinCS (['*', '*', '*'] :: rest)) := by
    simp only [redactAddress, if_neg hs, hsp]
  refine ⟨?_, ?_⟩
  · rw [heq, hsp]
    rfl
  · intro t ht
    rw [heq] at ht
    injection ht with h
    subst h
    cases rest with
    | nil => exact ⟨rfl, Or.inl rfl⟩
    | cons r rs => exact ⟨rfl, Or.inr rfl⟩

/-- Counterexample to C9 as stated: for the address `"ab,ab"` the redacted
output `"***, ab"` does contain the (stripped) first comma-separated
segment `"ab"` — it ends with it. -/
theorem C9_counterexample :
    pyStrip ((splitComma ['a', 'b', ',', 'a', 'b']).headD []) = ['a', 'b'] ∧
    redactAddress (Option.some ['a', 'b', ',', 'a', 'b']) =
      Option.some (['*', '*', '*', ',', ' '] ++ ['a', 'b']) := ⟨rfl, rfl⟩

/-- Witness for C9 (amended) at the one-character address `"x"`. -/
theorem C9_redaction_structure_witness :
    redactAddress (Option.some ['x']) =
      Option.some (joinCS (['*', '*', '*'] :: ((splitComma ['x']).map pyStrip).tail)) :=
  (C9_redaction_structure.2.2 ['x'] (by decide)).1

/-- Claim C10: the config-entry unique id is a function of the address
normalized by stripping and lowercasing, so two addresses equal after
normalization always produce the same unique id (for any hex-digest
function, the digest being an external dependency). -/
theorem C10_unique_id_normalized (hashHex : PyStr → PyStr) (a b : PyStr)
    (h : pyLower (pyStrip a) = pyLower (pyStrip b)) :
    addrUniqueId hashHex a = addrUniqueId hashHex b := by
  rw [addrUniqueId, addrUniqueId, h]

/-- Witness for C10: `" X "` and `"x"` normalize alike, hence share an id. -/
theorem C10_unique_id_normalized_witness :
    addrUniqueId id [' ', 'X', ' '] = addrUniqueId id ['x'] :=
  C10_unique_id_normalized id [' ', 'X', ' '] ['x'] (by decide)
